import Mathlib

/-!
Shallow embedding of the ai-pptx plugin's background-generation pipeline
(`lib/whisk-client.cjs` and phase 1 of `lib/build-presentation.cjs`) and
of the slide HTML templates (`lib/slide-templates.cjs`).

Remote HTTP calls are modelled by oracles supplied in an environment
(`Env`), indexed by the position of the call in the run.  JavaScript
falsiness on optional string fields is modelled with `Option String`
(absent) plus explicit empty-string checks, matching the `!x` tests of
the source.
-/

/-- Result of reading and parsing the token file in `loadToken`
(`lib/whisk-client.cjs`): the file may be missing (`!fs.existsSync`),
unreadable or unparseable (the caught exception), or parsed into a JSON
object whose `accessToken` and `expiresAt` fields may each be absent. -/
inductive TokenFileState : Type
  | missing
  | unreadable
  | parsed (accessToken : Option String) (expiresAt : Option Int)
  deriving DecidableEq

/-- The validated credential returned by `loadToken`. -/
structure TokenData where
  accessToken : String
  expiresAt : Int
  deriving DecidableEq

/-- `loadToken` from `lib/whisk-client.cjs`: returns `null` when the file
is missing, unreadable or unparseable, when `accessToken` or `expiresAt`
is falsy (absent, empty string, zero), or when fewer than 5 minutes
(300000 ms) remain before `expiresAt`; otherwise the pair read from the
file. -/
def loadToken : TokenFileState → Int → Option TokenData
  | .missing, _ => none
  | .unreadable, _ => none
  | .parsed a e, now =>
    match a, e with
    | some tok, some exp =>
      if tok = "" ∨ exp = 0 then none
      else if exp < now + 300000 then none
      else some ⟨tok, exp⟩
    | _, _ => none

/-- Outcome of one `fetch` call as the client code observes it: a thrown
network error (caught by the `try`/`catch` in every client function), a
non-ok HTTP response with status and body text, or an ok response with
parsed JSON data. -/
inductive HttpOutcome (α : Type) : Type
  | netError (msg : String)
  | httpError (status : Nat) (body : String)
  | ok (data : α)
  deriving DecidableEq

structure GeneratedImage where
  encodedImage : String
  deriving DecidableEq

/-- One entry of `imagePanels`; `generatedImages` is accessed with `?.`
in the source, so it may be absent. -/
structure ImagePanel where
  generatedImages : Option (List GeneratedImage)
  deriving DecidableEq

/-- Parsed JSON body of a generate / recipe response
(`data.imagePanels || []`). -/
structure GenRespData where
  imagePanels : Option (List ImagePanel)
  deriving DecidableEq

/-- Uniform result shape of `generateImage` and `generateWithReference`. -/
structure GenResult where
  success : Bool
  images : List String
  error : String
  deriving DecidableEq

/-- The response handling shared by `generateImage` and
`generateWithReference` in `lib/whisk-client.cjs`: a caught exception
maps to its message, a non-ok response to `HTTP <status>: <text>`, and a
body whose first panel holds no generated images to
`"No image data in response"`; otherwise the encoded images. -/
def parseGenResponse : HttpOutcome GenRespData → GenResult
  | .netError m => ⟨false, [], m⟩
  | .httpError status body => ⟨false, [], "HTTP " ++ toString status ++ ": " ++ body⟩
  | .ok d =>
    match d.imagePanels.getD [] with
    | [] => ⟨false, [], "No image data in response"⟩
    | p :: _ =>
      match p.generatedImages with
      | some (g :: gs) => ⟨true, (g :: gs).map (fun img => img.encodedImage), ""⟩
      | _ => ⟨false, [], "No image data in response"⟩

/-- Parsed JSON body of an upload response, flattened from
`data?.result?.data?.json?.result?.uploadMediaGenerationId`. -/
structure UploadRespData where
  uploadMediaGenerationId : Option String
  deriving DecidableEq

structure UploadResult where
  success : Bool
  mediaId : String
  error : String
  deriving DecidableEq

/-- `uploadReference`: success exactly when the response carries a truthy
`uploadMediaGenerationId`. -/
def uploadReference : HttpOutcome UploadRespData → UploadResult
  | .netError m => ⟨false, "", m⟩
  | .httpError status _ => ⟨false, "", "Upload HTTP " ++ toString status⟩
  | .ok d =>
    match d.uploadMediaGenerationId with
    | some id => if id = "" then ⟨false, "", "No Media ID returned"⟩ else ⟨true, id, ""⟩
    | none => ⟨false, "", "No Media ID returned"⟩

structure CaptionCandidate where
  output : Option String
  deriving DecidableEq

/-- Parsed JSON body of a caption response, flattened from
`data?.result?.data?.json?.result?.candidates`. -/
structure CaptionRespData where
  candidates : Option (List CaptionCandidate)
  deriving DecidableEq

structure CaptionResult where
  success : Bool
  caption : String
  error : String
  deriving DecidableEq

/-- `getCaptionForImage`: an ok response is always a success; an absent
or empty candidate list, or a falsy `output`, degrades to an empty
caption. -/
def getCaptionForImage : HttpOutcome CaptionRespData → CaptionResult
  | .netError m => ⟨false, "", m⟩
  | .httpError status _ => ⟨false, "", "Caption HTTP " ++ toString status⟩
  | .ok d =>
    match d.candidates with
    | some (c :: _) => ⟨true, c.output.getD "", ""⟩
    | _ => ⟨true, "", ""⟩

/-- Combined result shape of `uploadAndAnalyze`; the fields not set by
the source (`mediaId`/`caption` on failure, `error` on success) are
modelled as the empty string. -/
structure UAResult where
  success : Bool
  mediaId : String
  caption : String
  error : String
  deriving DecidableEq

/-- `uploadAndAnalyze` from `lib/whisk-client.cjs`: caption and upload
are issued concurrently (`Promise.all`); the combined call succeeds iff
the upload succeeds, a failed caption degrading to `""`. -/
def uploadAndAnalyze (capResp : HttpOutcome CaptionRespData)
    (uplResp : HttpOutcome UploadRespData) : UAResult :=
  let captionResult := getCaptionForImage capResp
  let uploadResult := uploadReference uplResp
  let caption := if captionResult.success then captionResult.caption else ""
  if uploadResult.success then
    ⟨true, uploadResult.mediaId, caption, ""⟩
  else
    ⟨false, "", "", uploadResult.error⟩

def MODELS_default : String := "IMAGEN_3_5"

def MODELS_refSingle : String := "GEM_PIX"

def MODELS_refMultiple : String := "R2I"

/-- `normalizeAspectRatio`: the fixed `ASPECT_RATIO_MAP` lookup with the
square default for unknown inputs. -/
def normalizeAspectRatio (ratio : String) : String :=
  if ratio = "1:1" then "IMAGE_ASPECT_RATIO_SQUARE"
  else if ratio = "16:9" then "IMAGE_ASPECT_RATIO_LANDSCAPE"
  else if ratio = "9:16" then "IMAGE_ASPECT_RATIO_PORTRAIT"
  else if ratio = "4:3" then "IMAGE_ASPECT_RATIO_LANDSCAPE"
  else if ratio = "3:4" then "IMAGE_ASPECT_RATIO_PORTRAIT"
  else if ratio = "IMAGE_ASPECT_RATIO_SQUARE" then "IMAGE_ASPECT_RATIO_SQUARE"
  else if ratio = "IMAGE_ASPECT_RATIO_LANDSCAPE" then "IMAGE_ASPECT_RATIO_LANDSCAPE"
  else if ratio = "IMAGE_ASPECT_RATIO_PORTRAIT" then "IMAGE_ASPECT_RATIO_PORTRAIT"
  else "IMAGE_ASPECT_RATIO_SQUARE"

/-- A previously uploaded/analyzed image used as a style conditioning
input (the objects pushed onto `userRefs`/`consistencyRefs`). -/
structure StyleReference where
  category : String
  mediaId : String
  caption : String
  deriving DecidableEq

structure RecipeMediaInput where
  caption : String
  mediaCategory : String
  mediaGenerationId : String
  deriving DecidableEq

/-- The parts of the `generateWithReference` request payload that are a
function of the arguments (the per-call random seed and session id are
request-tracing data, not modelled). -/
structure RecipePayload where
  imageModel : String
  aspectRatio : String
  userInstruction : String
  recipeMediaInputs : List RecipeMediaInput
  deriving DecidableEq

/-- Payload built by `generateWithReference`: the image model is
`MODELS.refSingle` when `references.length === 1` and
`MODELS.refMultiple` otherwise; `ref.caption || ''` is the identity on
our always-present caption strings. -/
def generateWithReferencePayload (prompt aspectRatio : String)
    (references : List StyleReference) : RecipePayload :=
  { imageModel := if references.length = 1 then MODELS_refSingle else MODELS_refMultiple
    aspectRatio := normalizeAspectRatio aspectRatio
    userInstruction := prompt
    recipeMediaInputs := references.map (fun ref => ⟨ref.caption, ref.category, ref.mediaId⟩) }

structure GradientStops where
  gFrom : String
  gVia : String
  gTo : String
  deriving DecidableEq

/-- The five-entry `gradients` palette inside
`generateFallbackBackground` (`lib/build-presentation.cjs`), looked up
as `gradients[slideType] || gradients.content`. -/
def fallbackGradients (slideType : String) : GradientStops :=
  if slideType = "title" then ⟨"#0f0c29", "#302b63", "#24243e"⟩
  else if slideType = "content" then ⟨"#1a1a2e", "#16213e", "#0f3460"⟩
  else if slideType = "data" then ⟨"#0d1117", "#161b22", "#21262d"⟩
  else if slideType = "features" then ⟨"#1a1a2e", "#1f2937", "#111827"⟩
  else if slideType = "closing" then ⟨"#2d1b69", "#1e1145", "#0f0c29"⟩
  else ⟨"#1a1a2e", "#16213e", "#0f3460"⟩

/-- The SVG template literal of `generateFallbackBackground`: a
three-stop linear gradient from the palette plus two fixed translucent
circles, at 1920x1080; the source's arithmetic interpolations
(`width * 0.7` = 1344, `height * 0.3` = 324, `height * 0.4` = 432,
`width * 0.3` = 576, `height * 0.7` = 756, `height * 0.25` = 270) are
written out as the decimal strings JavaScript renders. -/
def fallbackSvg (slideType : String) : String :=
  let g := fallbackGradients slideType
  "<svg width=\"1920\" height=\"1080\" xmlns=\"http://www.w3.org/2000/svg\">\n    <defs>\n      <linearGradient id=\"g\" x1=\"0%\" y1=\"0%\" x2=\"100%\" y2=\"100%\">\n        <stop offset=\"0%\" stop-color=\"" ++ g.gFrom ++ "\"/>\n        <stop offset=\"50%\" stop-color=\"" ++ g.gVia ++ "\"/>\n        <stop offset=\"100%\" stop-color=\"" ++ g.gTo ++ "\"/>\n      </linearGradient>\n    </defs>\n    <rect width=\"100%\" height=\"100%\" fill=\"url(#g)\"/>\n    <circle cx=\"1344\" cy=\"324\" r=\"432\" fill=\"" ++ g.gVia ++ "\" opacity=\"0.3\"/>\n    <circle cx=\"576\" cy=\"756\" r=\"270\" fill=\"" ++ g.gTo ++ "\" opacity=\"0.2\"/>\n  </svg>"

/-- What a produced background file holds: a remote base64 image saved
by `saveBase64Image`, or the locally rendered gradient SVG. -/
inductive BgContent : Type
  | remote (base64 : String)
  | gradient (svg : String)
  deriving DecidableEq

/-- One background file on disk: its path and its content. -/
structure BgFile where
  path : String
  content : BgContent
  deriving DecidableEq

/-- `path.join(outputDir, 'bg-<index>-<slideType>.png')`. -/
def bgPath (dir : String) (index : Nat) (slideType : String) : String :=
  dir ++ "/bg-" ++ toString index ++ "-" ++ slideType ++ ".png"

/-- `generateFallbackBackground(outputDir, slideType, index)`: render the
deterministic gradient SVG (Sharp's PNG encoding is modelled by the SVG
text itself) to `bg-<index>-<slideType>.png`. -/
def generateFallbackBackground (outputDir slideType : String) (index : Nat) : BgFile :=
  ⟨outputDir ++ "/bg-" ++ toString index ++ "-" ++ slideType ++ ".png",
   BgContent.gradient (fallbackSvg slideType)⟩

def STYLE_CATEGORY : String := "MEDIA_CATEGORY_STYLE"

/-- `TYPE_INSTRUCTIONS[slideType] || ''`. -/
def typeInstruction (slideType : String) : String :=
  if slideType = "title" then "Central focal point, slightly darker edges, space for centered text"
  else if slideType = "content" then "Subtle, not distracting, darker left area for text overlay"
  else if slideType = "data" then "Clean, professional, muted tones, will not compete with charts"
  else if slideType = "features" then "Subtle pattern, even lighting for placing white cards on top"
  else if slideType = "closing" then "Warm, inviting, central focal point, space for centered text"
  else ""

/-- `buildBgPrompt(styleDescription, slideType)`. -/
def buildBgPrompt (styleDescription slideType : String) : String :=
  styleDescription ++ ". " ++ typeInstruction slideType ++
    ". No text, no logos, no people. Abstract background only. 16:9."

/-- One remote invocation issued by `generateWhiskBackgrounds`, with the
arguments the orchestrator controls. -/
inductive RemoteCall : Type
  | captionCall (base64Data category token : String)
  | uploadCall (base64Data category token : String)
  | genTextCall (prompt aspectRatio token : String)
  | genRefCall (prompt aspectRatio token : String) (references : List StyleReference)
  deriving DecidableEq

/-- Oracle environment for one `generateWhiskBackgrounds` run: the token
file and clock read by `loadToken`, the filesystem queried for reference
paths, and the outcome of the k-th caption, upload and generation HTTP
call.  Generation calls are indexed by slide: index 0 is the anchor,
index i the call made for slide i. -/
structure Env where
  tokenFile : TokenFileState
  now : Int
  refExists : String → Bool
  fileBase64 : String → String
  captionAt : Nat → HttpOutcome CaptionRespData
  uploadAt : Nat → HttpOutcome UploadRespData
  genAt : Nat → HttpOutcome GenRespData

/-- Phase 1a of `generateWhiskBackgrounds`: upload-and-analyze each
caller reference path that exists on disk, keeping the successes in
order; `u` counts the upload/caption call pairs made so far. -/
def ingestRefs (env : Env) (token : String) :
    List String → Nat → List StyleReference × Nat × List RemoteCall
  | [], u => ([], u, [])
  | refPath :: rest, u =>
    if env.refExists refPath then
      let base64 := env.fileBase64 refPath
      let analysis := uploadAndAnalyze (env.captionAt u) (env.uploadAt u)
      let (refs, u2, calls) := ingestRefs env token rest (u + 1)
      ((if analysis.success then
          [StyleReference.mk STYLE_CATEGORY analysis.mediaId analysis.caption]
        else []) ++ refs,
       u2,
       RemoteCall.captionCall base64 STYLE_CATEGORY token ::
         RemoteCall.uploadCall base64 STYLE_CATEGORY token :: calls)
    else
      ingestRefs env token rest u

/-- The background file produced for slide `i` in phase 1d: the remote
image (`saveBase64Image(result.images[0], outPath)`) on success, else
the local fallback gradient for that slide's type and index. -/
def slideEntry (env : Env) (outputDir slideType : String) (i : Nat) : BgFile :=
  let result := parseGenResponse (env.genAt i)
  if result.success then
    ⟨bgPath outputDir i slideType, BgContent.remote (result.images.headD "")⟩
  else
    generateFallbackBackground outputDir slideType i

/-- The generation call the orchestrator issues for one slide:
`generateWithReference` when the reference list is non-empty, else
`generateImage`. -/
def slideGenCall (styleDescription token : String) (refs : List StyleReference)
    (slideType : String) : RemoteCall :=
  if 0 < refs.length then
    RemoteCall.genRefCall (buildBgPrompt styleDescription slideType) "16:9" token refs
  else
    RemoteCall.genTextCall (buildBgPrompt styleDescription slideType) "16:9" token

/-- Phase 1d of `generateWhiskBackgrounds`: the loop over slides
1..N-1, threading the slide index. -/
def restSlides (env : Env) (outputDir styleDescription token : String)
    (refs : List StyleReference) : List String → Nat → List BgFile × List RemoteCall
  | [], _ => ([], [])
  | slideType :: rest, i =>
    let (entries, calls) := restSlides env outputDir styleDescription token refs rest (i + 1)
    (slideEntry env outputDir slideType i :: entries,
     slideGenCall styleDescription token refs slideType :: calls)

/-- `generateWhiskBackgrounds(outputDir, styleDescription, refPaths,
slides)` from `lib/build-presentation.cjs`, with each slide descriptor
reduced to its `type` field.  Returns the produced background files (or
`none` when the token is absent or the anchor generation fails) together
with the trace of remote calls issued, in order. -/
def generateWhiskBackgrounds (env : Env) (outputDir styleDescription : String)
    (refPaths : List String) (slides : List String) :
    Option (List BgFile) × List RemoteCall :=
  match loadToken env.tokenFile env.now with
  | none => (none, [])
  | some tokenData =>
    let token := tokenData.accessToken
    let (userRefs, u, refCalls) := ingestRefs env token refPaths 0
    let firstType := slides.headD ""
    let anchorCall := slideGenCall styleDescription token userRefs firstType
    let anchorResult := parseGenResponse (env.genAt 0)
    if anchorResult.success then
      let anchorBase64 := anchorResult.images.headD ""
      let anchorRef := uploadAndAnalyze (env.captionAt u) (env.uploadAt u)
      let consistencyRefs := userRefs ++
        (if anchorRef.success then
          [StyleReference.mk STYLE_CATEGORY anchorRef.mediaId anchorRef.caption]
        else [])
      let (entries, restCalls) :=
        restSlides env outputDir styleDescription token consistencyRefs slides.tail 1
      (some (BgFile.mk (bgPath outputDir 0 firstType) (BgContent.remote anchorBase64) :: entries),
       refCalls ++ anchorCall ::
         RemoteCall.captionCall anchorBase64 STYLE_CATEGORY token ::
         RemoteCall.uploadCall anchorBase64 STYLE_CATEGORY token :: restCalls)
    else
      (none, refCalls ++ [anchorCall])

/-- The full-deck fallback loop of `buildPresentation` phase 1
(`for (let i = 0; i < slides.length; i++) ...`). -/
def fallbackAll (outputDir : String) : List String → Nat → List BgFile
  | [], _ => []
  | slideType :: rest, i =>
    generateFallbackBackground outputDir slideType i :: fallbackAll outputDir rest (i + 1)

/-- Phase 1 of `buildPresentation`: call `generateWhiskBackgrounds` and,
when it signals unavailability (`!backgrounds`), substitute a gradient
fallback for every slide. -/
def buildPresentationBackgrounds (env : Env) (outputDir styleDescription : String)
    (refPaths : List String) (slides : List String) : List BgFile × List RemoteCall :=
  match generateWhiskBackgrounds env outputDir styleDescription refPaths slides with
  | (some bgs, calls) => (bgs, calls)
  | (none, calls) => (fallbackAll outputDir slides 0, calls)

/-- Global single-character replacement on a character list: the
`String.prototype.replace(/pat/g, rep)` steps of `esc`, one pattern
character at a time. -/
def replaceAll (pat : Char) (rep : List Char) : List Char → List Char
  | [] => []
  | c :: rest => (if c = pat then rep else [c]) ++ replaceAll pat rep rest

/-- The four sequential global replacements of `esc` in
`lib/slide-templates.cjs`: `&` then `<` then `>` then `"`. -/
def escList (s : List Char) : List Char :=
  replaceAll '"' "&quot;".data
    (replaceAll '>' "&gt;".data
      (replaceAll '<' "&lt;".data
        (replaceAll '&' "&amp;".data s)))

/-- Spec-side character map: what `esc` does to each single input
character (used to state that `esc` replaces every occurrence). -/
def escChar (c : Char) : List Char :=
  if c = '&' then "&amp;".data
  else if c = '<' then "&lt;".data
  else if c = '>' then "&gt;".data
  else if c = '"' then "&quot;".data
  else [c]

/-- `esc(str)`: falsy input (absent field or empty string) maps to `''`;
otherwise the four entity replacements. -/
def esc : Option String → String
  | none => ""
  | some s => if s = "" then "" else String.mk (escList s.data)

/-- JavaScript truthiness of an optional string field
(`subtitle ? ... : ''`). -/
def jsTruthy : Option String → Bool
  | none => false
  | some s => if s = "" then false else true

/-- Truthiness for the pre-escaped (always-present) string fields of the
`...Pre` template variants. -/
def jsTruthyStr (s : String) : Bool :=
  if s = "" then false else true

def SLIDE_W : Nat := 720

def SLIDE_H : Nat := 405

/-- `baseStyles()` from `lib/slide-templates.cjs` (literal braces are
written with their character escapes). -/
def baseStyles : String :=
  "\n    * \x7b margin: 0; padding: 0; box-sizing: border-box; \x7d\n    body \x7b\n      width: " ++
    toString SLIDE_W ++ "pt;\n      height: " ++ toString SLIDE_H ++
    "pt;\n      font-family: Arial, Helvetica, sans-serif;\n      color: #ffffff;\n      overflow: hidden;\n      position: relative;\n      background-size: cover;\n      background-position: center;\n    \x7d\n  "

/-- `wrapSlide(bgImagePath, overlayDivs, innerHtml, extraStyles)`. -/
def wrapSlide (bgImagePath overlayDivs innerHtml extraStyles : String) : String :=
  "<!DOCTYPE html>\n<html lang=\"ru\">\n<head><meta charset=\"UTF-8\"><style>\n" ++
    baseStyles ++ "\n" ++ extraStyles ++
    "\n</style></head>\n<body style=\"background-image: url(\x27" ++ bgImagePath ++
    "\x27);\">\n" ++ overlayDivs ++ "\n" ++ innerHtml ++ "\n</body></html>"

def titleExtraStyles : String :=
  "\n    .overlay \x7b position: absolute; top: 0; left: 0; width: 100%; height: 100%; background: rgba(0,0,0,0.45); \x7d\n    h1 \x7b position: absolute; top: 140pt; left: 60pt; width: 600pt; text-align: center; font-size: 38pt; font-weight: 700; line-height: 1.2; \x7d\n    .subtitle \x7b position: absolute; top: 200pt; left: 80pt; width: 560pt; text-align: center; font-size: 19pt; font-weight: 400; line-height: 1.4; color: rgba(255,255,255,0.9); \x7d\n    .date \x7b position: absolute; top: 260pt; left: 80pt; width: 560pt; text-align: center; font-size: 13pt; color: rgba(255,255,255,0.7); \x7d\n  "

/-- `titleSlide({ bgImage, title, subtitle, date })`. -/
def titleSlide (bgImage : String) (title subtitle date : Option String) : String :=
  let inner :=
    "\n<h1>" ++ esc title ++ "</h1>\n" ++
      (if jsTruthy subtitle then "<p class=\"subtitle\">" ++ esc subtitle ++ "</p>" else "") ++
      "\n" ++
      (if jsTruthy date then "<p class=\"date\">" ++ esc date ++ "</p>" else "") ++
      "\n  "
  wrapSlide bgImage "<div class=\"overlay\"></div>" inner titleExtraStyles

def contentExtraStyles : String :=
  "\n    .overlay \x7b position: absolute; top: 0; left: 0; width: 65%; height: 100%; background: rgba(0,0,0,0.45); \x7d\n    h2 \x7b position: absolute; top: 36pt; left: 32pt; width: 410pt; font-size: 26pt; font-weight: 700; line-height: 1.2; \x7d\n    ul \x7b position: absolute; top: 85pt; left: 32pt; width: 410pt; list-style: none; padding: 0; \x7d\n    li \x7b font-size: 15pt; line-height: 1.5; margin-bottom: 10pt; padding-left: 20pt; position: relative; \x7d\n    li::before \x7b content: \"\\2022\"; position: absolute; left: 0; color: rgba(255,255,255,0.7); \x7d\n  "

/-- `contentSlide({ bgImage, title, bullets })`. -/
def contentSlide (bgImage : String) (title : Option String)
    (bullets : List (Option String)) : String :=
  let bulletHtml :=
    String.intercalate "\n" (bullets.map (fun b => "  <li>" ++ esc b ++ "</li>"))
  let inner := "\n<h2>" ++ esc title ++ "</h2>\n<ul>\n" ++ bulletHtml ++ "\n</ul>\n  "
  wrapSlide bgImage "<div class=\"overlay\"></div>" inner contentExtraStyles

/-- One entry of the `metrics` array of a data slide. -/
structure MetricArg where
  value : Option String
  label : Option String

def dataExtraStyles : String :=
  "\n    .overlay \x7b position: absolute; top: 0; left: 0; width: 42%; height: 100%; background: rgba(0,0,0,0.50); \x7d\n    h2 \x7b position: absolute; top: 32pt; left: 28pt; width: 270pt; font-size: 24pt; font-weight: 700; line-height: 1.2; \x7d\n    .m0-val \x7b position: absolute; top: 85pt; left: 28pt; width: 270pt; font-size: 28pt; font-weight: 700; \x7d\n    .m0-lbl \x7b position: absolute; top: 115pt; left: 28pt; width: 270pt; font-size: 12pt; color: rgba(255,255,255,0.75); \x7d\n    .m1-val \x7b position: absolute; top: 150pt; left: 28pt; width: 270pt; font-size: 28pt; font-weight: 700; \x7d\n    .m1-lbl \x7b position: absolute; top: 180pt; left: 28pt; width: 270pt; font-size: 12pt; color: rgba(255,255,255,0.75); \x7d\n    .m2-val \x7b position: absolute; top: 215pt; left: 28pt; width: 270pt; font-size: 28pt; font-weight: 700; \x7d\n    .m2-lbl \x7b position: absolute; top: 245pt; left: 28pt; width: 270pt; font-size: 12pt; color: rgba(255,255,255,0.75); \x7d\n    .placeholder \x7b\n      position: absolute; top: 60pt; left: 320pt; width: 370pt; height: 285pt;\n      background: rgba(128,128,128,0.3); border-radius: 8pt;\n    \x7d\n  "

/-- The metric loop of `dataSlide`
(`for (let i = 0; i < Math.min(m.length, 3); i++) ...`), applied to the
first three metrics with the index threaded. -/
def dataMetricsHtml : List MetricArg → Nat → String
  | [], _ => ""
  | mt :: rest, i =>
    "<p class=\"m" ++ toString i ++ "-val\">" ++ esc mt.value ++ "</p>\n" ++
      "<p class=\"m" ++ toString i ++ "-lbl\">" ++ esc mt.label ++ "</p>\n" ++
      dataMetricsHtml rest (i + 1)

/-- `dataSlide({ bgImage, title, metrics, chartLabel })`; `chartLabel` is
destructured but unused in the source. -/
def dataSlide (bgImage : String) (title : Option String) (metrics : List MetricArg)
    (chartLabel : Option String) : String :=
  let metricsHtml := dataMetricsHtml (metrics.take 3) 0
  let inner :=
    "\n<h2>" ++ esc title ++ "</h2>\n" ++ metricsHtml ++
      "\n<div class=\"placeholder\" id=\"chart-area\"></div>\n  "
  wrapSlide bgImage "<div class=\"overlay\"></div>" inner dataExtraStyles

/-- One entry of the `features` array of a features slide. -/
structure FeatureArg where
  title : Option String
  description : Option String

def featuresExtraStyles : String :=
  "\n    .overlay \x7b position: absolute; top: 0; left: 0; width: 100%; height: 80pt; background: rgba(0,0,0,0.50); \x7d\n    h2 \x7b position: absolute; top: 24pt; left: 32pt; width: 656pt; font-size: 24pt; font-weight: 700; text-align: center; line-height: 1.2; \x7d\n    .card0 \x7b position: absolute; top: 110pt; left: 32pt; width: 200pt; height: 250pt; background: rgba(255,255,255,0.92); border-radius: 8pt; \x7d\n    .card1 \x7b position: absolute; top: 110pt; left: 260pt; width: 200pt; height: 250pt; background: rgba(255,255,255,0.92); border-radius: 8pt; \x7d\n    .card2 \x7b position: absolute; top: 110pt; left: 488pt; width: 200pt; height: 250pt; background: rgba(255,255,255,0.92); border-radius: 8pt; \x7d\n    .ct0 \x7b position: absolute; top: 140pt; left: 48pt; width: 168pt; font-size: 14pt; font-weight: 700; color: #1a1a2e; text-align: center; \x7d\n    .cd0 \x7b position: absolute; top: 170pt; left: 48pt; width: 168pt; font-size: 11pt; line-height: 1.4; color: rgba(26,26,46,0.8); text-align: center; \x7d\n    .ct1 \x7b position: absolute; top: 140pt; left: 276pt; width: 168pt; font-size: 14pt; font-weight: 700; color: #1a1a2e; text-align: center; \x7d\n    .cd1 \x7b position: absolute; top: 170pt; left: 276pt; width: 168pt; font-size: 11pt; line-height: 1.4; color: rgba(26,26,46,0.8); text-align: center; \x7d\n    .ct2 \x7b position: absolute; top: 140pt; left: 504pt; width: 168pt; font-size: 14pt; font-weight: 700; color: #1a1a2e; text-align: center; \x7d\n    .cd2 \x7b position: absolute; top: 170pt; left: 504pt; width: 168pt; font-size: 11pt; line-height: 1.4; color: rgba(26,26,46,0.8); text-align: center; \x7d\n  "

/-- The card-div half of the `featuresSlide` loop (depends only on the
number of features kept). -/
def featuresCardsHtml {α : Type} : List α → Nat → String
  | [], _ => ""
  | _ :: rest, i =>
    "<div class=\"card" ++ toString i ++ "\"></div>\n" ++ featuresCardsHtml rest (i + 1)

/-- The text half of the `featuresSlide` loop. -/
def featuresTextsHtml : List FeatureArg → Nat → String
  | [], _ => ""
  | ft :: rest, i =>
    "<p class=\"ct" ++ toString i ++ "\">" ++ esc ft.title ++ "</p>\n" ++
      "<p class=\"cd" ++ toString i ++ "\">" ++ esc ft.description ++ "</p>\n" ++
      featuresTextsHtml rest (i + 1)

/-- `featuresSlide({ bgImage, title, features })`
(`const f = (features || []).slice(0, 3)`). -/
def featuresSlide (bgImage : String) (title : Option String)
    (features : List FeatureArg) : String :=
  let f := features.take 3
  let inner :=
    "\n<h2>" ++ esc title ++ "</h2>\n" ++ featuresCardsHtml f 0 ++ "\n" ++
      featuresTextsHtml f 0 ++ "\n  "
  wrapSlide bgImage "<div class=\"overlay\"></div>" inner featuresExtraStyles

/-- The per-line style rules of `closingSlide`
(`lines.map((_, i) => '.cl<i> ...')`, `startTop = 220`); only the index
is used, so this is polymorphic in the element type. -/
def closingStyles {α : Type} : List α → Nat → List String
  | [], _ => []
  | _ :: rest, i =>
    (".cl" ++ toString i ++ " \x7b position: absolute; top: " ++ toString (220 + i * 28) ++
      "pt; left: 80pt; width: 560pt; text-align: center; font-size: 15pt; color: rgba(255,255,255,0.85); line-height: 1.5; \x7d") ::
      closingStyles rest (i + 1)

/-- `lines.map((l, i) => '<p class="cl<i>">' + esc(l) + '</p>')`. -/
def closingLinesHtml : List (Option String) → Nat → List String
  | [], _ => []
  | l :: rest, i =>
    ("<p class=\"cl" ++ toString i ++ "\">" ++ esc l ++ "</p>") :: closingLinesHtml rest (i + 1)

/-- `closingSlide({ bgImage, heading, contactLines })`. -/
def closingSlide (bgImage : String) (heading : Option String)
    (contactLines : List (Option String)) : String :=
  let lines := contactLines
  let extra :=
    "\n    .overlay \x7b position: absolute; top: 0; left: 0; width: 100%; height: 100%; background: rgba(0,0,0,0.45); \x7d\n    h1 \x7b position: absolute; top: 150pt; left: 60pt; width: 600pt; text-align: center; font-size: 36pt; font-weight: 700; line-height: 1.2; \x7d\n    " ++
      String.intercalate "\n    " (closingStyles lines 0) ++ "\n  "
  let linesHtml := String.intercalate "\n" (closingLinesHtml lines 0)
  let inner :=
    "\n<h1>" ++ esc (if jsTruthy heading then heading else some "Thank you") ++ "</h1>\n" ++
      linesHtml ++ "\n  "
  wrapSlide bgImage "<div class=\"overlay\"></div>" inner extra

/-- The background entries produced by the phase-1d loop, projected out
of `restSlides` (they depend only on the generation oracle, the output
directory, the slide types and the start index). -/
def restEntries (env : Env) (outputDir : String) : List String → Nat → List BgFile
  | [], _ => []
  | slideType :: rest, i =>
    slideEntry env outputDir slideType i :: restEntries env outputDir rest (i + 1)

/-- `titleSlide` with pre-escaped fields inserted verbatim: used to state
that `titleSlide` passes each user field through `esc` exactly once. -/
def titleSlidePre (bgImage title subtitle date : String) : String :=
  let inner :=
    "\n<h1>" ++ title ++ "</h1>\n" ++
      (if jsTruthyStr subtitle then "<p class=\"subtitle\">" ++ subtitle ++ "</p>" else "") ++
      "\n" ++
      (if jsTruthyStr date then "<p class=\"date\">" ++ date ++ "</p>" else "") ++
      "\n  "
  wrapSlide bgImage "<div class=\"overlay\"></div>" inner titleExtraStyles

/-- `contentSlide` with pre-escaped fields inserted verbatim. -/
def contentSlidePre (bgImage title : String) (bullets : List String) : String :=
  let bulletHtml :=
    String.intercalate "\n" (bullets.map (fun b => "  <li>" ++ b ++ "</li>"))
  let inner := "\n<h2>" ++ title ++ "</h2>\n<ul>\n" ++ bulletHtml ++ "\n</ul>\n  "
  wrapSlide bgImage "<div class=\"overlay\"></div>" inner contentExtraStyles

/-- A metric whose fields are already escaped. -/
structure MetricPre where
  value : String
  label : String

def dataMetricsHtmlPre : List MetricPre → Nat → String
  | [], _ => ""
  | mt :: rest, i =>
    "<p class=\"m" ++ toString i ++ "-val\">" ++ mt.value ++ "</p>\n" ++
      "<p class=\"m" ++ toString i ++ "-lbl\">" ++ mt.label ++ "</p>\n" ++
      dataMetricsHtmlPre rest (i + 1)

/-- `dataSlide` with pre-escaped fields inserted verbatim. -/
def dataSlidePre (bgImage title : String) (metrics : List MetricPre) : String :=
  let metricsHtml := dataMetricsHtmlPre (metrics.take 3) 0
  let inner :=
    "\n<h2>" ++ title ++ "</h2>\n" ++ metricsHtml ++
      "\n<div class=\"placeholder\" id=\"chart-area\"></div>\n  "
  wrapSlide bgImage "<div class=\"overlay\"></div>" inner dataExtraStyles

/-- A feature card whose fields are already escaped. -/
structure FeaturePre where
  title : String
  description : String

def featuresTextsHtmlPre : List FeaturePre → Nat → String
  | [], _ => ""
  | ft :: rest, i =>
    "<p class=\"ct" ++ toString i ++ "\">" ++ ft.title ++ "</p>\n" ++
      "<p class=\"cd" ++ toString i ++ "\">" ++ ft.description ++ "</p>\n" ++
      featuresTextsHtmlPre rest (i + 1)

/-- `featuresSlide` with pre-escaped fields inserted verbatim. -/
def featuresSlidePre (bgImage title : String) (features : List FeaturePre) : String :=
  let f := features.take 3
  let inner :=
    "\n<h2>" ++ title ++ "</h2>\n" ++ featuresCardsHtml f 0 ++ "\n" ++
      featuresTextsHtmlPre f 0 ++ "\n  "
  wrapSlide bgImage "<div class=\"overlay\"></div>" inner featuresExtraStyles

def closingLinesHtmlPre : List String → Nat → List String
  | [], _ => []
  | l :: rest, i =>
    ("<p class=\"cl" ++ toString i ++ "\">" ++ l ++ "</p>") :: closingLinesHtmlPre rest (i + 1)

/-- `closingSlide` with pre-escaped fields inserted verbatim. -/
def closingSlidePre (bgImage heading : String) (contactLines : List String) : String :=
  let lines := contactLines
  let extra :=
    "\n    .overlay \x7b position: absolute; top: 0; left: 0; width: 100%; height: 100%; background: rgba(0,0,0,0.45); \x7d\n    h1 \x7b position: absolute; top: 150pt; left: 60pt; width: 600pt; text-align: center; font-size: 36pt; font-weight: 700; line-height: 1.2; \x7d\n    " ++
      String.intercalate "\n    " (closingStyles lines 0) ++ "\n  "
  let linesHtml := String.intercalate "\n" (closingLinesHtmlPre lines 0)
  let inner :=
    "\n<h1>" ++ (if jsTruthyStr heading then heading else "Thank you") ++ "</h1>\n" ++
      linesHtml ++ "\n  "
  wrapSlide bgImage "<div class=\"overlay\"></div>" inner extra

/-- The conditions claim C7 lists for a `null` result of `loadToken`,
read literally: file missing, unparseable, a required field absent, or
expiry within 300000 ms of now. -/
def claimedNullCond : TokenFileState → Int → Bool
  | .missing, _ => true
  | .unreadable, _ => true
  | .parsed a e, now =>
    match a, e with
    | none, _ => true
    | some _, none => true
    | some _, some exp => decide (exp < now + 300000)

/-- The amended conditions for a `null` result of `loadToken`: as the
claim, but a present field that is falsy (`accessToken = ""`,
`expiresAt = 0`) also counts as missing, matching the source's
`!data.accessToken || !data.expiresAt` check. -/
def amendedNullCond : TokenFileState → Int → Bool
  | .missing, _ => true
  | .unreadable, _ => true
  | .parsed a e, now =>
    match a, e with
    | none, _ => true
    | some _, none => true
    | some tok, some exp =>
      decide (tok = "") || decide (exp = 0) || decide (exp < now + 300000)

/-- A token file holding a valid, far-from-expiry credential (used to
evaluate the model on concrete runs). -/
def goodTokenFile : TokenFileState :=
  TokenFileState.parsed (some "tok") (some 1000000000)

/-- A successful generation response carrying one image `"IMG"`. -/
def okGenResp : HttpOutcome GenRespData :=
  HttpOutcome.ok (GenRespData.mk (some [ImagePanel.mk (some [GeneratedImage.mk "IMG"])]))

/-- Concrete environment with no usable credential. -/
def envNoToken : Env where
  tokenFile := TokenFileState.missing
  now := 0
  refExists := fun _ => false
  fileBase64 := fun _ => ""
  captionAt := fun _ => HttpOutcome.netError "offline"
  uploadAt := fun _ => HttpOutcome.netError "offline"
  genAt := fun _ => HttpOutcome.netError "offline"

/-- Concrete environment where every remote call succeeds. -/
def envAllOk : Env where
  tokenFile := goodTokenFile
  now := 0
  refExists := fun _ => false
  fileBase64 := fun _ => ""
  captionAt := fun _ => HttpOutcome.ok (CaptionRespData.mk (some [CaptionCandidate.mk (some "cap")]))
  uploadAt := fun _ => HttpOutcome.ok (UploadRespData.mk (some "mid"))
  genAt := fun _ => okGenResp

/-- As `envAllOk`, but every generation call fails (in particular the
anchor). -/
def envAnchorFails : Env :=
  { envAllOk with genAt := fun _ => HttpOutcome.httpError 500 "boom" }

/-- As `envAllOk`, but exactly the generation call for slide 1 fails. -/
def envSlide1Fails : Env :=
  { envAllOk with
    genAt := fun k => if k = 1 then HttpOutcome.httpError 500 "boom" else okGenResp }

lemma slideEntry_path (env : Env) (dir t : String) (i : Nat) :
    (slideEntry env dir t i).path = bgPath dir i t := by
  by_cases h : (parseGenResponse (env.genAt i)).success = true <;>
    simp [slideEntry, generateFallbackBackground, bgPath, h]

lemma slideEntry_congr (env env2 : Env) (dir t : String) (i : Nat)
    (h : env2.genAt i = env.genAt i) :
    slideEntry env2 dir t i = slideEntry env dir t i := by
  unfold slideEntry
  rw [h]

lemma restSlides_fst (env : Env) (dir style token : String) (refs : List StyleReference) :
    ∀ (ts : List String) (i : Nat),
      (restSlides env dir style token refs ts i).1 = restEntries env dir ts i
  | [], _ => rfl
  | t :: ts, i => by
    show slideEntry env dir t i :: (restSlides env dir style token refs ts (i + 1)).1 = _
    rw [restSlides_fst env dir style token refs ts (i + 1)]
    rfl

lemma restSlides_snd (env : Env) (dir style token : String) (refs : List StyleReference) :
    ∀ (ts : List String) (i : Nat),
      (restSlides env dir style token refs ts i).2 =
        ts.map (fun t => slideGenCall style token refs t)
  | [], _ => rfl
  | t :: ts, i => by
    show slideGenCall style token refs t :: (restSlides env dir style token refs ts (i + 1)).2 = _
    rw [restSlides_snd env dir style token refs ts (i + 1)]
    rfl

lemma restEntries_length (env : Env) (dir : String) :
    ∀ (ts : List String) (i : Nat), (restEntries env dir ts i).length = ts.length
  | [], _ => rfl
  | _ :: ts, i => by
    simp [restEntries, restEntries_length env dir ts (i + 1)]

lemma restEntries_getD (env : Env) (dir : String) (d : BgFile) :
    ∀ (ts : List String) (i k : Nat), k < ts.length →
      (restEntries env dir ts i).getD k d = slideEntry env dir (ts.getD k "") (i + k)
  | [], _, k, hk => by simp at hk
  | t :: ts, i, 0, _ => by simp [restEntries]
  | t :: ts, i, k + 1, hk => by
    have hk2 : k < ts.length := by simpa using hk
    have := restEntries_getD env dir d ts (i + 1) k hk2
    simp only [restEntries, List.getD_cons_succ, this]
    have harith : i + 1 + k = i + (k + 1) := by omega
    rw [harith]

lemma fallbackAll_length (dir : String) :
    ∀ (ts : List String) (i : Nat), (fallbackAll dir ts i).length = ts.length
  | [], _ => rfl
  | _ :: ts, i => by
    simp [fallbackAll, fallbackAll_length dir ts (i + 1)]

lemma fallbackAll_getD (dir : String) (d : BgFile) :
    ∀ (ts : List String) (i k : Nat), k < ts.length →
      (fallbackAll dir ts i).getD k d = generateFallbackBackground dir (ts.getD k "") (i + k)
  | [], _, k, hk => by simp at hk
  | t :: ts, i, 0, _ => by simp [fallbackAll]
  | t :: ts, i, k + 1, hk => by
    have hk2 : k < ts.length := by simpa using hk
    have := fallbackAll_getD dir d ts (i + 1) k hk2
    simp only [fallbackAll, List.getD_cons_succ, this]
    have harith : i + 1 + k = i + (k + 1) := by omega
    rw [harith]

lemma ua_success (capResp : HttpOutcome CaptionRespData) (uplResp : HttpOutcome UploadRespData) :
    (uploadAndAnalyze capResp uplResp).success = (uploadReference uplResp).success := by
  cases h : (uploadReference uplResp).success <;> simp [uploadAndAnalyze, h]

lemma gwb_none (env : Env) (dir style : String) (rp slides : List String)
    (h : loadToken env.tokenFile env.now = none) :
    generateWhiskBackgrounds env dir style rp slides = (none, []) := by
  unfold generateWhiskBackgrounds
  rw [h]

lemma gwb_fst_anchorFail (env : Env) (dir style : String) (rp slides : List String)
    (td : TokenData) (h : loadToken env.tokenFile env.now = some td)
    (hf : (parseGenResponse (env.genAt 0)).success = false) :
    (generateWhiskBackgrounds env dir style rp slides).1 = none := by
  unfold generateWhiskBackgrounds
  rw [h]
  simp only [hf]
  rfl

lemma gwb_fst_success (env : Env) (dir style : String) (rp : List String)
    (t0 : String) (ts : List String) (td : TokenData)
    (h : loadToken env.tokenFile env.now = some td)
    (hs : (parseGenResponse (env.genAt 0)).success = true) :
    (generateWhiskBackgrounds env dir style rp (t0 :: ts)).1 =
      some (slideEntry env dir t0 0 :: restEntries env dir ts 1) := by
  unfold generateWhiskBackgrounds
  rw [h]
  simp only [hs]
  simp only [restSlides_fst]
  simp only [slideEntry, hs, if_true]
  rfl

lemma bp_fst (env : Env) (dir style : String) (rp slides : List String) :
    (buildPresentationBackgrounds env dir style rp slides).1 =
      ((generateWhiskBackgrounds env dir style rp slides).1).getD (fallbackAll dir slides 0) := by
  unfold buildPresentationBackgrounds
  cases hg : generateWhiskBackgrounds env dir style rp slides with
  | mk o c => cases o <;> rfl

lemma bp_snd (env : Env) (dir style : String) (rp slides : List String) :
    (buildPresentationBackgrounds env dir style rp slides).2 =
      (generateWhiskBackgrounds env dir style rp slides).2 := by
  unfold buildPresentationBackgrounds
  cases hg : generateWhiskBackgrounds env dir style rp slides with
  | mk o c => cases o <;> rfl

/-- C1: for every build over N >= 1 slide descriptors, the backgrounds
list produced by `buildPresentation` (phase 1) has exactly N entries,
index-aligned with the slide list: entry i is the background file path
for slide i (`bg-<i>-<type_i>.png` under the images directory), and no
entry is missing, whatever the oracle environment makes the remote
generation calls do. -/
theorem backgroundSet_length_aligned (env : Env) (dir style : String)
    (rp slides : List String) (h : slides ≠ []) :
    ((buildPresentationBackgrounds env dir style rp slides).1).length = slides.length ∧
    ∀ k, k < slides.length →
      (((buildPresentationBackgrounds env dir style rp slides).1).getD k
          (BgFile.mk "" (BgContent.remote ""))).path = bgPath dir k (slides.getD k "") := by
  cases htok : loadToken env.tokenFile env.now with
  | none =>
    have hg := gwb_none env dir style rp slides htok
    have hbp : (buildPresentationBackgrounds env dir style rp slides).1 =
        fallbackAll dir slides 0 := by
      rw [bp_fst, hg]
      rfl
    rw [hbp]
    refine ⟨fallbackAll_length dir slides 0, ?_⟩
    intro k hk
    rw [fallbackAll_getD dir _ slides 0 k hk, Nat.zero_add]
    rfl
  | some td =>
    cases hs : (parseGenResponse (env.genAt 0)).success with
    | false =>
      have hg := gwb_fst_anchorFail env dir style rp slides td htok hs
      have hbp : (buildPresentationBackgrounds env dir style rp slides).1 =
          fallbackAll dir slides 0 := by
        rw [bp_fst, hg]
        rfl
      rw [hbp]
      refine ⟨fallbackAll_length dir slides 0, ?_⟩
      intro k hk
      rw [fallbackAll_getD dir _ slides 0 k hk, Nat.zero_add]
      rfl
    | true =>
      cases slides with
      | nil => exact absurd rfl h
      | cons t0 ts =>
        have hg := gwb_fst_success env dir style rp t0 ts td htok hs
        have hbp : (buildPresentationBackgrounds env dir style rp (t0 :: ts)).1 =
            slideEntry env dir t0 0 :: restEntries env dir ts 1 := by
          rw [bp_fst, hg]
          rfl
        rw [hbp]
        constructor
        · simp [restEntries_length]
        · intro k hk
          cases k with
          | zero =>
            simpa using slideEntry_path env dir t0 0
          | succ k2 =>
            have hk2 : k2 < ts.length := by simpa using hk
            rw [List.getD_cons_succ, restEntries_getD env dir _ ts 1 k2 hk2,
              slideEntry_path]
            have harith : 1 + k2 = k2 + 1 := by omega
            rw [harith, List.getD_cons_succ]

/-- Witness for C1 at a concrete two-slide build in an environment
without a credential. -/
theorem backgroundSet_length_aligned_witness :
    (["title", "content"] : List String) ≠ [] ∧
    ((buildPresentationBackgrounds envNoToken "out" "sty" [] ["title", "content"]).1.length = 2 ∧
      ∀ k, k < 2 →
        ((buildPresentationBackgrounds envNoToken "out" "sty" [] ["title", "content"]).1.getD k
            (BgFile.mk "" (BgContent.remote ""))).path =
          bgPath "out" k ((["title", "content"] : List String).getD k "")) :=
  ⟨by decide, backgroundSet_length_aligned envNoToken "out" "sty" [] ["title", "content"] (by decide)⟩

/-- C2: if `loadToken` returns `null`, `generateWhiskBackgrounds`
returns `null` immediately with an empty remote-call trace (no upload,
no caption, no generation), and `buildPresentation` then produces the
locally generated fallback background for every slide. -/
theorem missing_token_full_fallback (env : Env) (dir style : String)
    (rp slides : List String) (h : loadToken env.tokenFile env.now = none) :
    generateWhiskBackgrounds env dir style rp slides = (none, []) ∧
    (buildPresentationBackgrounds env dir style rp slides).1 = fallbackAll dir slides 0 ∧
    (buildPresentationBackgrounds env dir style rp slides).2 = [] := by
  have hg := gwb_none env dir style rp slides h
  refine ⟨hg, ?_, ?_⟩
  · rw [bp_fst, hg]
    rfl
  · rw [bp_snd, hg]

/-- Witness for C2: a missing token file on a one-slide build. -/
theorem missing_token_full_fallback_witness :
    loadToken envNoToken.tokenFile envNoToken.now = none ∧
    (generateWhiskBackgrounds envNoToken "out" "sty" [] ["title"] = (none, []) ∧
      (buildPresentationBackgrounds envNoToken "out" "sty" [] ["title"]).1 =
        fallbackAll "out" ["title"] 0 ∧
      (buildPresentationBackgrounds envNoToken "out" "sty" [] ["title"]).2 = []) :=
  ⟨rfl, missing_token_full_fallback envNoToken "out" "sty" [] ["title"] rfl⟩

/-- C3: if the anchor generation call (slide 0) fails,
`generateWhiskBackgrounds` returns `null` without producing any
per-slide fallback itself, and the caller then produces exactly N
fallback backgrounds, one for every slide including slide 0. -/
theorem anchor_failure_full_fallback (env : Env) (dir style : String)
    (rp slides : List String) (td : TokenData)
    (h : loadToken env.tokenFile env.now = some td)
    (hf : (parseGenResponse (env.genAt 0)).success = false) :
    (generateWhiskBackgrounds env dir style rp slides).1 = none ∧
    (buildPresentationBackgrounds env dir style rp slides).1 = fallbackAll dir slides 0 ∧
    (buildPresentationBackgrounds env dir style rp slides).1.length = slides.length ∧
    ∀ k, k < slides.length →
      (buildPresentationBackgrounds env dir style rp slides).1.getD k
          (BgFile.mk "" (BgContent.remote "")) =
        generateFallbackBackground dir (slides.getD k "") k := by
  have hg := gwb_fst_anchorFail env dir style rp slides td h hf
  have hbp : (buildPresentationBackgrounds env dir style rp slides).1 =
      fallbackAll dir slides 0 := by
    rw [bp_fst, hg]
    rfl
  refine ⟨hg, hbp, ?_, ?_⟩
  · rw [hbp, fallbackAll_length]
  · intro k hk
    rw [hbp, fallbackAll_getD dir _ slides 0 k hk, Nat.zero_add]

/-- Witness for C3: all generation calls fail in `envAnchorFails`. -/
theorem anchor_failure_full_fallback_witness :
    loadToken envAnchorFails.tokenFile envAnchorFails.now =
      some (TokenData.mk "tok" 1000000000) ∧
    (parseGenResponse (envAnchorFails.genAt 0)).success = false ∧
    ((generateWhiskBackgrounds envAnchorFails "out" "sty" [] ["title", "content"]).1 = none ∧
      (buildPresentationBackgrounds envAnchorFails "out" "sty" [] ["title", "content"]).1 =
        fallbackAll "out" ["title", "content"] 0 ∧
      (buildPresentationBackgrounds envAnchorFails "out" "sty" [] ["title", "content"]).1.length = 2 ∧
      ∀ k, k < 2 →
        (buildPresentationBackgrounds envAnchorFails "out" "sty" [] ["title", "content"]).1.getD k
            (BgFile.mk "" (BgContent.remote "")) =
          generateFallbackBackground "out" ((["title", "content"] : List String).getD k "") k) :=
  ⟨by decide, by decide,
    anchor_failure_full_fallback envAnchorFails "out" "sty" [] ["title", "content"]
      (TokenData.mk "tok" 1000000000) (by decide) (by decide)⟩

/-- C4 (frame property): with a valid token and a successful anchor, if
the generation call for slide i (1 <= i <= N-1) fails in environment
`env2` while `env2` agrees with `env` on every other generation outcome,
then the run in `env2` still produces all N entries, entry i is the
local fallback for that slide's type and index, and every other entry is
exactly what the `env` run produces. -/
theorem per_slide_failure_frame (env env2 : Env) (dir style : String)
    (rp slides : List String) (i : Nat) (td : TokenData)
    (h1 : env2.tokenFile = env.tokenFile) (h2 : env2.now = env.now)
    (h3 : ∀ j, j ≠ i → env2.genAt j = env.genAt j)
    (hi1 : 1 ≤ i) (hi2 : i < slides.length)
    (htok : loadToken env.tokenFile env.now = some td)
    (hs : (parseGenResponse (env.genAt 0)).success = true)
    (hf : (parseGenResponse (env2.genAt i)).success = false) :
    ∃ bgs bgs2,
      (generateWhiskBackgrounds env dir style rp slides).1 = some bgs ∧
      (generateWhiskBackgrounds env2 dir style rp slides).1 = some bgs2 ∧
      bgs.length = slides.length ∧ bgs2.length = slides.length ∧
      bgs2.getD i (BgFile.mk "" (BgContent.remote "")) =
        generateFallbackBackground dir (slides.getD i "") i ∧
      (∀ k, k < slides.length → k ≠ i →
        bgs2.getD k (BgFile.mk "" (BgContent.remote "")) =
          bgs.getD k (BgFile.mk "" (BgContent.remote ""))) := by
  cases slides with
  | nil => simp at hi2
  | cons t0 ts =>
    have hi0 : (0 : Nat) ≠ i := by omega
    have htok2 : loadToken env2.tokenFile env2.now = some td := by
      rw [h1, h2]; exact htok
    have hgen0 : env2.genAt 0 = env.genAt 0 := h3 0 hi0
    have hs2 : (parseGenResponse (env2.genAt 0)).success = true := by
      rw [hgen0]; exact hs
    refine ⟨_, _, gwb_fst_success env dir style rp t0 ts td htok hs,
      gwb_fst_success env2 dir style rp t0 ts td htok2 hs2, ?_, ?_, ?_, ?_⟩
    · simp [restEntries_length]
    · simp [restEntries_length]
    · cases i with
      | zero => omega
      | succ k2 =>
        have hk2 : k2 < ts.length := by simpa using hi2
        rw [List.getD_cons_succ, restEntries_getD env2 dir _ ts 1 k2 hk2]
        have harith : 1 + k2 = k2 + 1 := by omega
        rw [harith, List.getD_cons_succ]
        simp [slideEntry, hf]
    · intro k hk hki
      cases k with
      | zero =>
        simp only [List.getD_cons_zero]
        exact slideEntry_congr env env2 dir t0 0 hgen0
      | succ k2 =>
        have hk2 : k2 < ts.length := by simpa using hk
        rw [List.getD_cons_succ, List.getD_cons_succ,
          restEntries_getD env2 dir _ ts 1 k2 hk2, restEntries_getD env dir _ ts 1 k2 hk2]
        exact slideEntry_congr env env2 dir (ts.getD k2 "") (1 + k2) (h3 (1 + k2) (by omega))

/-- Witness for C4: a three-slide build where only slide 1's generation
fails. -/
theorem per_slide_failure_frame_witness :
    ∃ bgs bgs2,
      (generateWhiskBackgrounds envAllOk "out" "sty" [] ["title", "content", "data"]).1 =
        some bgs ∧
      (generateWhiskBackgrounds envSlide1Fails "out" "sty" [] ["title", "content", "data"]).1 =
        some bgs2 ∧
      bgs.length = 3 ∧ bgs2.length = 3 ∧
      bgs2.getD 1 (BgFile.mk "" (BgContent.remote "")) =
        generateFallbackBackground "out" "content" 1 ∧
      (∀ k, k < 3 → k ≠ 1 →
        bgs2.getD k (BgFile.mk "" (BgContent.remote "")) =
          bgs.getD k (BgFile.mk "" (BgContent.remote ""))) :=
  per_slide_failure_frame envAllOk envSlide1Fails "out" "sty" [] ["title", "content", "data"]
    1 (TokenData.mk "tok" 1000000000) rfl rfl
    (by
      intro j hj
      simp only [envSlide1Fails, envAllOk]
      rw [if_neg hj])
    (by decide) (by decide) (by decide) (by decide) (by decide)

/-- C9: with no caller-supplied reference images, a valid credential and
all remote calls succeeding (in particular the anchor's re-upload), the
trace of remote calls is: one no-reference generation for slide 0, the
caption+upload pair promoting the anchor image, and then, for each slide
1..N-1, a generation call whose reference list is exactly the single
`StyleReference` produced by uploading the anchor image. -/
theorem anchor_promotion_single_reference (env : Env) (dir style : String)
    (slides : List String) (td : TokenData)
    (htok : loadToken env.tokenFile env.now = some td)
    (hgen : ∀ k, (parseGenResponse (env.genAt k)).success = true)
    (hupl : ∀ k, (uploadReference (env.uploadAt k)).success = true) :
    (generateWhiskBackgrounds env dir style [] slides).2 =
      RemoteCall.genTextCall (buildBgPrompt style (slides.headD "")) "16:9" td.accessToken ::
        RemoteCall.captionCall ((parseGenResponse (env.genAt 0)).images.headD "")
          STYLE_CATEGORY td.accessToken ::
        RemoteCall.uploadCall ((parseGenResponse (env.genAt 0)).images.headD "")
          STYLE_CATEGORY td.accessToken ::
        slides.tail.map (fun t =>
          RemoteCall.genRefCall (buildBgPrompt style t) "16:9" td.accessToken
            [StyleReference.mk STYLE_CATEGORY
              (uploadAndAnalyze (env.captionAt 0) (env.uploadAt 0)).mediaId
              (uploadAndAnalyze (env.captionAt 0) (env.uploadAt 0)).caption]) := by
  have hua : (uploadAndAnalyze (env.captionAt 0) (env.uploadAt 0)).success = true := by
    rw [ua_success]; exact hupl 0
  unfold generateWhiskBackgrounds
  rw [htok]
  simp only [hgen 0, if_true]
  simp only [ingestRefs, hua, if_true, List.nil_append, restSlides_snd]
  simp [slideGenCall]

/-- Witness for C9: a two-slide build in `envAllOk`. -/
theorem anchor_promotion_single_reference_witness :
    (generateWhiskBackgrounds envAllOk "out" "sty" [] ["title", "content"]).2 =
      RemoteCall.genTextCall (buildBgPrompt "sty" "title") "16:9" "tok" ::
        RemoteCall.captionCall "IMG" STYLE_CATEGORY "tok" ::
        RemoteCall.uploadCall "IMG" STYLE_CATEGORY "tok" ::
        [RemoteCall.genRefCall (buildBgPrompt "sty" "content") "16:9" "tok"
          [StyleReference.mk STYLE_CATEGORY "mid" "cap"]] :=
  anchor_promotion_single_reference envAllOk "out" "sty" ["title", "content"]
    (TokenData.mk "tok" 1000000000) (by decide) (fun k => rfl) (fun k => rfl)

/-- C5: the remote model chosen by `generateWithReference` is a fixed
function of the reference-list length: exactly one reference selects the
single-reference model `GEM_PIX`; two or more select the multi-reference
model `R2I`. -/
theorem reference_count_selects_model (prompt ratio : String)
    (references : List StyleReference) :
    (references.length = 1 →
      (generateWithReferencePayload prompt ratio references).imageModel = "GEM_PIX") ∧
    (2 ≤ references.length →
      (generateWithReferencePayload prompt ratio references).imageModel = "R2I") := by
  constructor
  · intro h
    simp [generateWithReferencePayload, MODELS_refSingle, h]
  · intro h
    have hne : references.length ≠ 1 := by omega
    simp [generateWithReferencePayload, MODELS_refMultiple, hne]

/-- Witness for C5 at reference counts 1 and 2. -/
theorem reference_count_selects_model_witness :
    (generateWithReferencePayload "p" "16:9"
        [StyleReference.mk "s" "m1" "c1"]).imageModel = "GEM_PIX" ∧
    (generateWithReferencePayload "p" "16:9"
        [StyleReference.mk "s" "m1" "c1", StyleReference.mk "s" "m2" "c2"]).imageModel = "R2I" :=
  ⟨(reference_count_selects_model "p" "16:9" [StyleReference.mk "s" "m1" "c1"]).1 rfl,
    (reference_count_selects_model "p" "16:9"
      [StyleReference.mk "s" "m1" "c1", StyleReference.mk "s" "m2" "c2"]).2 (by decide)⟩

/-- C6: `uploadAndAnalyze` succeeds iff the upload half succeeds; on
upload success the result carries the upload's media id and the caption
(the caption call's caption on caption success, `""` on caption
failure); on upload failure the result is a failure carrying the
upload's error, regardless of the caption outcome. -/
theorem uploadAndAnalyze_success_iff_upload (capResp : HttpOutcome CaptionRespData)
    (uplResp : HttpOutcome UploadRespData) :
    ((uploadAndAnalyze capResp uplResp).success = (uploadReference uplResp).success) ∧
    ((uploadReference uplResp).success = true →
      uploadAndAnalyze capResp uplResp =
        UAResult.mk true (uploadReference uplResp).mediaId
          (if (getCaptionForImage capResp).success then (getCaptionForImage capResp).caption
            else "") "") ∧
    ((uploadReference uplResp).success = false →
      uploadAndAnalyze capResp uplResp =
        UAResult.mk false "" "" (uploadReference uplResp).error) := by
  refine ⟨ua_success capResp uplResp, ?_, ?_⟩
  · intro h
    simp [uploadAndAnalyze, h]
  · intro h
    simp [uploadAndAnalyze, h]

/-- Witness for C6: a failing caption with a succeeding upload, and a
succeeding caption with a failing upload. -/
theorem uploadAndAnalyze_success_iff_upload_witness :
    uploadAndAnalyze (HttpOutcome.netError "down") (HttpOutcome.ok (UploadRespData.mk (some "mid"))) =
      UAResult.mk true "mid" "" "" ∧
    uploadAndAnalyze (HttpOutcome.ok (CaptionRespData.mk (some [CaptionCandidate.mk (some "cap")])))
        (HttpOutcome.httpError 500 "boom") =
      UAResult.mk false "" "" "Upload HTTP 500" :=
  ⟨(uploadAndAnalyze_success_iff_upload (HttpOutcome.netError "down")
      (HttpOutcome.ok (UploadRespData.mk (some "mid")))).2.1 rfl,
    (uploadAndAnalyze_success_iff_upload
      (HttpOutcome.ok (CaptionRespData.mk (some [CaptionCandidate.mk (some "cap")])))
      (HttpOutcome.httpError 500 "boom")).2.2 rfl⟩

/-- C7 counterexample: with `accessToken` present but equal to the empty
string and a far-future `expiresAt`, `loadToken` returns `null` although
none of the conditions listed by the claim (file missing, unparseable,
field absent, expiry within 300000 ms) holds. -/
theorem loadToken_claim_counterexample :
    loadToken (TokenFileState.parsed (some "") (some 1000000000000)) 0 = none ∧
    claimedNullCond (TokenFileState.parsed (some "") (some 1000000000000)) 0 = false := by
  decide

/-- C7 (amended): `loadToken` returns `null` exactly when the file is
missing, unparseable, `accessToken` is absent or empty, `expiresAt` is
absent or zero, or `expiresAt` is less than 300000 ms after the current
time; otherwise it returns the `{accessToken, expiresAt}` pair read from
the file, and it never throws (totality of the embedding). -/
theorem loadToken_null_conditions (file : TokenFileState) (now : Int) :
    (loadToken file now = none ↔ amendedNullCond file now = true) ∧
    (∀ a e, file = TokenFileState.parsed (some a) (some e) →
      amendedNullCond file now = false → loadToken file now = some (TokenData.mk a e)) := by
  cases file with
  | missing =>
    refine ⟨by simp [loadToken, amendedNullCond], ?_⟩
    intro a e hfe
    exact absurd hfe (by simp)
  | unreadable =>
    refine ⟨by simp [loadToken, amendedNullCond], ?_⟩
    intro a e hfe
    exact absurd hfe (by simp)
  | parsed oa oe =>
    cases oa with
    | none =>
      refine ⟨by simp [loadToken, amendedNullCond], ?_⟩
      intro a e hfe
      simp at hfe
    | some tok =>
      cases oe with
      | none =>
        refine ⟨by simp [loadToken, amendedNullCond], ?_⟩
        intro a e hfe
        simp at hfe
      | some exp =>
        constructor
        · by_cases h1 : tok = "" ∨ exp = 0
          · simp [loadToken, amendedNullCond, h1]
          · push_neg at h1
            by_cases h2 : exp < now + 300000
            · simp [loadToken, amendedNullCond, h1.1, h1.2, h2]
            · simp [loadToken, amendedNullCond, h1.1, h1.2, h2]
        · intro a e hfe hcond
          have ha : tok = a := by
            injection hfe with hfe1 hfe2
            injection hfe1
          have he : exp = e := by
            injection hfe with hfe1 hfe2
            injection hfe2
          subst ha
          subst he
          simp only [amendedNullCond, Bool.or_eq_false_iff, decide_eq_false_iff_not] at hcond
          simp [loadToken, hcond.1.1, hcond.1.2, hcond.2]

/-- Witness for C7 (amended) at a valid token file. -/
theorem loadToken_null_conditions_witness :
    loadToken (TokenFileState.parsed (some "tok") (some 1000000000)) 0 =
      some (TokenData.mk "tok" 1000000000) :=
  (loadToken_null_conditions (TokenFileState.parsed (some "tok") (some 1000000000)) 0).2
    "tok" 1000000000 rfl (by decide)

/-- C8: `generateFallbackBackground` is deterministic (a pure function
of its arguments); for a fixed slide type the produced gradient image
content is independent of the index, which affects only the output
filename; and the gradient stops come from the fixed five-entry palette
keyed by slide type, with unknown types using the `content` palette. -/
theorem fallback_deterministic (dir slideType : String) (i j : Nat) :
    (generateFallbackBackground dir slideType i).content =
      (generateFallbackBackground dir slideType j).content ∧
    (generateFallbackBackground dir slideType i).path =
      dir ++ "/bg-" ++ toString i ++ "-" ++ slideType ++ ".png" ∧
    (generateFallbackBackground dir slideType i).content =
      BgContent.gradient (fallbackSvg slideType) ∧
    (slideType ≠ "title" → slideType ≠ "content" → slideType ≠ "data" →
      slideType ≠ "features" → slideType ≠ "closing" →
      fallbackGradients slideType = fallbackGradients "content") := by
  refine ⟨rfl, rfl, rfl, ?_⟩
  intro h1 h2 h3 h4 h5
  rw [fallbackGradients, if_neg h1, if_neg h2, if_neg h3, if_neg h4, if_neg h5]
  rfl

/-- Witness for C8 at an unknown slide type and two different indices. -/
theorem fallback_deterministic_witness :
    (generateFallbackBackground "out" "weird" 0).content =
      (generateFallbackBackground "out" "weird" 5).content ∧
    (generateFallbackBackground "out" "weird" 0).path =
      "out" ++ "/bg-" ++ toString 0 ++ "-" ++ "weird" ++ ".png" ∧
    (generateFallbackBackground "out" "weird" 0).content =
      BgContent.gradient (fallbackSvg "weird") ∧
    fallbackGradients "weird" = fallbackGradients "content" :=
  ⟨(fallback_deterministic "out" "weird" 0 5).1,
    (fallback_deterministic "out" "weird" 0 5).2.1,
    (fallback_deterministic "out" "weird" 0 5).2.2.1,
    (fallback_deterministic "out" "weird" 0 5).2.2.2 (by decide) (by decide) (by decide)
      (by decide) (by decide)⟩

lemma replaceAll_append (pat : Char) (rep : List Char) :
    ∀ a b, replaceAll pat rep (a ++ b) = replaceAll pat rep a ++ replaceAll pat rep b
  | [], _ => rfl
  | c :: a, b => by
    simp only [List.cons_append, replaceAll, List.append_eq,
      replaceAll_append pat rep a b, List.append_assoc]

lemma escList_cons (c : Char) (l : List Char) :
    escList (c :: l) = escChar c ++ escList l := by
  simp only [escList]
  rw [show replaceAll '&' "&amp;".data (c :: l) =
      (if c = '&' then "&amp;".data else [c]) ++ replaceAll '&' "&amp;".data l from rfl]
  rw [replaceAll_append, replaceAll_append, replaceAll_append]
  congr 1
  by_cases h1 : c = '&'
  · subst h1
    rw [if_pos rfl]
    decide
  by_cases h2 : c = '<'
  · subst h2
    rw [if_neg h1]
    decide
  by_cases h3 : c = '>'
  · subst h3
    rw [if_neg h1]
    decide
  by_cases h4 : c = '"'
  · subst h4
    rw [if_neg h1]
    decide
  simp [escChar, replaceAll, h1, h2, h3, h4]

lemma escList_eq_flatten : ∀ l : List Char, escList l = (l.map escChar).flatten
  | [] => rfl
  | c :: l => by
    rw [escList_cons, escList_eq_flatten l]
    simp

lemma escChar_ne_nil (c : Char) : escChar c ≠ [] := by
  unfold escChar
  split_ifs <;> simp

lemma escList_ne_nil (l : List Char) (h : l ≠ []) : escList l ≠ [] := by
  cases l with
  | nil => exact absurd rfl h
  | cons c l =>
    rw [escList_cons]
    intro hc
    exact escChar_ne_nil c (List.append_eq_nil.mp hc).1

lemma escChar_no_specials (c : Char) :
    ((escChar c).all fun x => !(x == '<' || x == '>' || x == '"')) = true := by
  unfold escChar
  by_cases h1 : c = '&'
  · simp [h1]
  by_cases h2 : c = '<'
  · simp [h1, h2]
  by_cases h3 : c = '>'
  · simp [h1, h2, h3]
  by_cases h4 : c = '"'
  · simp [h1, h2, h3, h4]
  simp [h1, h2, h3, h4]

lemma escList_no_specials (l : List Char) :
    ((escList l).all fun x => !(x == '<' || x == '>' || x == '"')) = true := by
  induction l with
  | nil => rfl
  | cons c l ih =>
    rw [escList_cons, List.all_append, escChar_no_specials, ih]
    rfl

lemma esc_ne_empty (s : String) (h : s ≠ "") : esc (some s) ≠ "" := by
  have hd : s.data ≠ [] := by
    intro hh
    apply h
    cases s with
    | mk data =>
      simp only at hh
      rw [hh]
  simp only [esc, if_neg h]
  intro he
  apply escList_ne_nil s.data hd
  have := congrArg String.data he
  simpa using this

lemma jsTruthyStr_esc (o : Option String) : jsTruthyStr (esc o) = jsTruthy o := by
  cases o with
  | none => rfl
  | some s =>
    by_cases h : s = ""
    · simp [esc, jsTruthyStr, jsTruthy, h]
    · simp only [jsTruthyStr, jsTruthy, if_neg h, if_neg (esc_ne_empty s h)]

lemma dataMetricsHtml_pre : ∀ (m : List MetricArg) (i : Nat),
    dataMetricsHtmlPre (m.map fun mt => MetricPre.mk (esc mt.value) (esc mt.label)) i =
      dataMetricsHtml m i
  | [], _ => rfl
  | mt :: m, i => by
    simp only [List.map_cons, dataMetricsHtmlPre, dataMetricsHtml,
      dataMetricsHtml_pre m (i + 1)]

lemma featuresTextsHtml_pre : ∀ (f : List FeatureArg) (i : Nat),
    featuresTextsHtmlPre (f.map fun ft => FeaturePre.mk (esc ft.title) (esc ft.description)) i =
      featuresTextsHtml f i
  | [], _ => rfl
  | ft :: f, i => by
    simp only [List.map_cons, featuresTextsHtmlPre, featuresTextsHtml,
      featuresTextsHtml_pre f (i + 1)]

lemma featuresCardsHtml_map {α β : Type} (g : α → β) :
    ∀ (l : List α) (i : Nat), featuresCardsHtml (l.map g) i = featuresCardsHtml l i
  | [], _ => rfl
  | _ :: l, i => by
    simp only [List.map_cons, featuresCardsHtml, featuresCardsHtml_map g l (i + 1)]

lemma closingStyles_map {α β : Type} (g : α → β) :
    ∀ (l : List α) (i : Nat), closingStyles (l.map g) i = closingStyles l i
  | [], _ => rfl
  | _ :: l, i => by
    simp only [List.map_cons, closingStyles, closingStyles_map g l (i + 1)]

lemma closingLinesHtml_pre : ∀ (l : List (Option String)) (i : Nat),
    closingLinesHtmlPre (l.map esc) i = closingLinesHtml l i
  | [], _ => rfl
  | x :: l, i => by
    simp only [List.map_cons, closingLinesHtmlPre, closingLinesHtml,
      closingLinesHtml_pre l (i + 1)]

lemma esc_thank_you : esc (some "Thank you") = "Thank you" := by decide

/-- C10: every user-supplied text field inserted into the HTML of the
five slide templates goes through `esc` first: `esc` maps falsy input to
the empty string, replaces each occurrence of the four dangerous
characters with its HTML entity (the character-map form), its output
never contains a raw `<`, `>` or `"`, and each template's output equals
the corresponding verbatim-insertion template applied to the
pre-escaped fields, so no unescaped user text appears in the markup. -/
theorem templates_escape_user_text :
    (∀ o : Option String,
      ((esc o).data.all fun x => !(x == '<' || x == '>' || x == '"')) = true) ∧
    (esc none = "" ∧ esc (some "") = "") ∧
    (∀ l : List Char, escList l = (l.map escChar).flatten) ∧
    (∀ bgImage title subtitle date,
      titleSlide bgImage title subtitle date =
        titleSlidePre bgImage (esc title) (esc subtitle) (esc date)) ∧
    (∀ bgImage title bullets,
      contentSlide bgImage title bullets =
        contentSlidePre bgImage (esc title) (bullets.map esc)) ∧
    (∀ bgImage title metrics chartLabel,
      dataSlide bgImage title metrics chartLabel =
        dataSlidePre bgImage (esc title)
          (metrics.map fun mt => MetricPre.mk (esc mt.value) (esc mt.label))) ∧
    (∀ bgImage title features,
      featuresSlide bgImage title features =
        featuresSlidePre bgImage (esc title)
          (features.map fun ft => FeaturePre.mk (esc ft.title) (esc ft.description))) ∧
    (∀ bgImage heading contactLines,
      closingSlide bgImage heading contactLines =
        closingSlidePre bgImage (esc heading) (contactLines.map esc)) := by
  refine ⟨?_, ⟨rfl, rfl⟩, escList_eq_flatten, ?_, ?_, ?_, ?_, ?_⟩
  · intro o
    cases o with
    | none => rfl
    | some s =>
      by_cases h : s = ""
      · simp [esc, h]
      · simp only [esc, if_neg h]
        exact escList_no_specials s.data
  · intro bgImage title subtitle date
    simp only [titleSlide, titleSlidePre, jsTruthyStr_esc]
  · intro bgImage title bullets
    simp only [contentSlide, contentSlidePre, List.map_map]
    rfl
  · intro bgImage title metrics chartLabel
    simp only [dataSlide, dataSlidePre, ← List.map_take, dataMetricsHtml_pre]
  · intro bgImage title features
    simp only [featuresSlide, featuresSlidePre, ← List.map_take, featuresCardsHtml_map,
      featuresTextsHtml_pre]
  · intro bgImage heading contactLines
    simp only [closingSlide, closingSlidePre, closingStyles_map, closingLinesHtml_pre,
      jsTruthyStr_esc]
    cases hj : jsTruthy heading with
    | true => simp [hj]
    | false => simp [hj, esc_thank_you]
